import Mathlib

/-!
Verification of `src/calendar_integration.py`.

Shallow embedding conventions:
* Timestamps are integers counting minutes (timezone-aware datetimes form a
  totally ordered set; only comparison and subtraction are used by the code,
  so `Int` minutes is a faithful carrier). A duration (`datetime.timedelta`)
  is likewise an `Int` number of minutes.
* A busy period and a free slot are pairs `(start, end)` of timestamps.
* ISO-8601 strings are abstracted by `TsStr`: the empty string, a malformed
  string (on which `parse_iso` raises), or a string denoting a timestamp.
* The Flask handlers are pure functions of the environment, the parsed
  request, and the external Google-Calendar collaborators (passed as
  functions). Each handler returns its HTTP response together with the list
  of provider interactions it performed, in order.
-/

namespace CalendarIntegration

/-- Abstraction of an ISO-8601 datetime string: empty, malformed (parsing
raises), or valid with the timestamp it denotes (in minutes). -/
inductive TsStr
  | empty
  | malformed (msg : String)
  | valid (t : Int)

/-- `parse_iso` (lines 113-123 of the source): parsing a valid string yields
its timestamp; empty or malformed strings raise, modelled as `Except.error`. -/
def parse_iso : TsStr → Except String Int
  | .empty => .error "Invalid isoformat string"
  | .malformed msg => .error msg
  | .valid t => .ok t

/-- Python truthiness test `not s` for an optional string argument:
a missing value (`None`) and the empty string are falsy. -/
def tsFalsy : Option TsStr → Bool
  | none => true
  | some .empty => true
  | some (.malformed _) => false
  | some (.valid _) => false

/-- One iteration step datum of `compute_free_slots` (lines 126-152): walk the
busy periods with a cursor `cur`, emitting `(cur, busy_start)` whenever the
busy period starts after the cursor and the span is at least `d` long, then
moving the cursor past the busy period when it ends after the cursor.
Returns the emitted slots and the final cursor. -/
def freeSlotsLoop (d : Int) : List (Int × Int) → Int → List (Int × Int) × Int
  | [], cur => ([], cur)
  | (bs, be) :: rest, cur =>
    let emitted : List (Int × Int) :=
      if bs > cur then (if bs - cur ≥ d then [(cur, bs)] else []) else []
    let cur' := if be > cur then be else cur
    let r := freeSlotsLoop d rest cur'
    (emitted ++ r.1, r.2)

/-- `compute_free_slots` (lines 126-152 of the source): run the loop from the
window start, then emit the trailing span `(cursor, end)` when the window end
lies after the final cursor and the span is at least `d` long. -/
def compute_free_slots (busy_periods : List (Int × Int)) (start «end» d : Int) :
    List (Int × Int) :=
  let r := freeSlotsLoop d busy_periods start
  if «end» > r.2 then
    (if «end» - r.2 ≥ d then r.1 ++ [(r.2, «end»)] else r.1)
  else r.1

/-- The sort performed by `query_free_busy` (line 165 of the source):
`busy_periods.sort(key=lambda x: x["start"])`, a stable sort by start.
`List.insertionSort` with `p.1 ≤ q.1` is stable, like Python's `list.sort`. -/
def sortByStart (busy_periods : List (Int × Int)) : List (Int × Int) :=
  List.insertionSort (fun p q => p.1 ≤ q.1) busy_periods

/-- `query_free_busy` (lines 155-166): issue the provider's free/busy query
for the window, then sort the busy periods by start. The provider call is
abstracted as the function `freebusy`. -/
def query_free_busy (freebusy : Int → Int → Except String (List (Int × Int)))
    (start «end» : Int) : Except String (List (Int × Int)) :=
  match freebusy start «end» with
  | .error msg => .error msg
  | .ok busy_periods => .ok (sortByStart busy_periods)

/-- Process environment relevant to the handlers: `GOOGLE_CALENDAR_ID`
(`none` models unset or empty), `DEFAULT_TIMEZONE` (`none` models unset,
defaulted to `"UTC"`), and the service-account credentials consumed by
`get_calendar_service` (lines 98-110), whose construction either succeeds or
raises with a message. -/
structure Env where
  calendarId : Option String
  tzName : Option String
  creds : Except String Unit

/-- The optional `duration_minutes` query argument as consumed by
`request.args.get("duration_minutes", default=60, type=int)`: a missing or
non-integer value falls back to the default. -/
inductive IntParam
  | malformed
  | ok (n : Int)

/-- Flask's `request.args.get(name, default, type=int)`: the default is used
when the argument is absent or fails integer conversion. -/
def getIntArg : Option IntParam → Int → Int
  | none, dflt => dflt
  | some .malformed, dflt => dflt
  | some (.ok n), _ => n

/-- Query arguments of `GET /get_available_slots`. -/
structure SlotsArgs where
  start : Option TsStr
  endArg : Option TsStr
  duration_minutes : Option IntParam

/-- The event body built by `book_meeting` (lines 228-235) and sent to
`service.events().insert`: `attendees = none` means the `attendees` key is
absent from the body. -/
structure EventBody where
  summary : String
  description : String
  start : Int
  endTime : Int
  timeZone : String
  attendees : Option (List String)

/-- The provider's created-event representation, of which the handler echoes
the five `created_event.get(...)` fields (values are provider-controlled and
kept abstract; `start`/`end` are opaque nested objects). -/
structure CreatedEvent where
  id : Option String
  htmlLink : Option String
  summary : Option String
  start : Option String
  endTime : Option String

/-- JSON response payloads produced by the two handlers. -/
inductive RespBody
  | errorMsg (msg : String)
  | freeSlots (slots : List (Int × Int))
  | created (ev : CreatedEvent)

/-- An HTTP response: status code and JSON payload. -/
structure HResponse where
  status : Nat
  body : RespBody

/-- One interaction with the Google Calendar provider, in the order the
handler performs them: constructing the service client, issuing a free/busy
query, or inserting an event. -/
inductive ProviderCall
  | buildService
  | freeBusyQuery (s e : Int)
  | insertEvent (ev : EventBody)

/-- `GET /get_available_slots` (lines 171-198 of the source), as a pure
function of the environment, the query arguments and the provider's free/busy
behaviour. Returns the response and the trace of provider interactions. -/
def get_available_slots (env : Env) (args : SlotsArgs)
    (freebusy : Int → Int → Except String (List (Int × Int))) :
    HResponse × List ProviderCall :=
  match env.calendarId with
  | none => (⟨500, .errorMsg "GOOGLE_CALENDAR_ID environment variable is not set"⟩, [])
  | some _ =>
    let duration_minutes := getIntArg args.duration_minutes 60
    if tsFalsy args.start || tsFalsy args.endArg then
      (⟨400, .errorMsg "start and end query parameters are required"⟩, [])
    else
      match parse_iso (args.start.getD .empty) with
      | .error msg => (⟨400, .errorMsg ("Invalid datetime format: " ++ msg)⟩, [])
      | .ok start =>
        match parse_iso (args.endArg.getD .empty) with
        | .error msg => (⟨400, .errorMsg ("Invalid datetime format: " ++ msg)⟩, [])
        | .ok e =>
          if start ≥ e then
            (⟨400, .errorMsg "start must be before end"⟩, [])
          else
            match env.creds with
            | .error msg => (⟨500, .errorMsg msg⟩, [.buildService])
            | .ok _ =>
              match query_free_busy freebusy start e with
              | .error msg => (⟨500, .errorMsg msg⟩, [.buildService, .freeBusyQuery start e])
              | .ok busy_periods =>
                (⟨200, .freeSlots (compute_free_slots busy_periods start e duration_minutes)⟩,
                 [.buildService, .freeBusyQuery start e])

/-- The JSON body of `POST /book_meeting` when it parses to a JSON object:
the five keys the handler reads (`none` = key absent), plus the number of
unrecognised keys, which only affects the dict's Python truthiness. -/
structure MeetingBody where
  start : Option TsStr
  endField : Option TsStr
  summary : Option String
  description : Option String
  attendees : Option (List String)
  extraKeys : Nat

/-- Python truthiness of the parsed JSON object: a dict is truthy iff it has
at least one key. -/
def bodyTruthy (b : MeetingBody) : Bool :=
  b.start.isSome || b.endField.isSome || b.summary.isSome ||
    b.description.isSome || b.attendees.isSome || decide (b.extraKeys ≠ 0)

/-- `if not data:` on the result of `request.get_json(silent=True)`:
`none` models a missing or non-JSON body as well as JSON `null`; a parsed
object is falsy exactly when it is the empty dict `{}`. -/
def dataFalsy : Option MeetingBody → Bool
  | none => true
  | some b => !bodyTruthy b

/-- The `event_body` dict built at lines 228-235: `summary` defaults to
`"Meeting"`, `description` to `""`, and the `attendees` key is attached only
when the attendee list is truthy (present and non-empty). -/
def mkEventBody (b : MeetingBody) (start e : Int) (tz_name : String) : EventBody :=
  { summary := b.summary.getD "Meeting"
    description := b.description.getD ""
    start := start
    endTime := e
    timeZone := tz_name
    attendees :=
      match b.attendees.getD [] with
      | [] => none
      | emails => some emails }

/-- `POST /book_meeting` (lines 201-246 of the source), as a pure function of
the environment, the parsed JSON body and the provider's event-insertion
behaviour. Returns the response and the trace of provider interactions. -/
def book_meeting (env : Env) (data : Option MeetingBody)
    (insertEv : EventBody → Except String CreatedEvent) :
    HResponse × List ProviderCall :=
  match env.calendarId with
  | none => (⟨500, .errorMsg "GOOGLE_CALENDAR_ID environment variable is not set"⟩, [])
  | some _ =>
    let tz_name := env.tzName.getD "UTC"
    match data with
    | none => (⟨400, .errorMsg "Request body must be JSON"⟩, [])
    | some b =>
      if !bodyTruthy b then
        (⟨400, .errorMsg "Request body must be JSON"⟩, [])
      else if tsFalsy b.start || tsFalsy b.endField then
        (⟨400, .errorMsg "start and end fields are required"⟩, [])
      else
        match parse_iso (b.start.getD .empty) with
        | .error msg => (⟨400, .errorMsg ("Invalid datetime format: " ++ msg)⟩, [])
        | .ok start =>
          match parse_iso (b.endField.getD .empty) with
          | .error msg => (⟨400, .errorMsg ("Invalid datetime format: " ++ msg)⟩, [])
          | .ok e =>
            if start ≥ e then
              (⟨400, .errorMsg "start must be before end"⟩, [])
            else
              match env.creds with
              | .error msg => (⟨500, .errorMsg msg⟩, [.buildService])
              | .ok _ =>
                let event_body := mkEventBody b start e tz_name
                match insertEv event_body with
                | .error msg => (⟨500, .errorMsg msg⟩, [.buildService, .insertEvent event_body])
                | .ok created_event =>
                  (⟨201, .created
                      { id := created_event.id
                        htmlLink := created_event.htmlLink
                        summary := created_event.summary
                        start := created_event.start
                        endTime := created_event.endTime }⟩,
                   [.buildService, .insertEvent event_body])

/-! ### Invariants of the free-slot loop -/

lemma freeSlotsLoop_le_final (d : Int) (busy : List (Int × Int)) (cur : Int) :
    cur ≤ (freeSlotsLoop d busy cur).2 := by
  induction busy generalizing cur with
  | nil => simp [freeSlotsLoop]
  | cons p rest ih =>
    obtain ⟨bs, be⟩ := p
    simp only [freeSlotsLoop]
    refine le_trans ?_ (ih (if be > cur then be else cur))
    split <;> omega

lemma freeSlotsLoop_busy_le_final (d : Int) (busy : List (Int × Int)) (cur : Int) :
    ∀ p ∈ busy, p.2 ≤ (freeSlotsLoop d busy cur).2 := by
  induction busy generalizing cur with
  | nil => simp
  | cons q rest ih =>
    obtain ⟨bs, be⟩ := q
    intro p hp
    simp only [freeSlotsLoop]
    rcases List.mem_cons.1 hp with h | h
    · subst h
      refine le_trans ?_ (freeSlotsLoop_le_final d rest (if be > cur then be else cur))
      split <;> omega
    · exact ih (if be > cur then be else cur) p h

lemma freeSlotsLoop_gap_bounds (d : Int) (busy : List (Int × Int)) (cur : Int) :
    ∀ g ∈ (freeSlotsLoop d busy cur).1, cur ≤ g.1 ∧ g.1 < g.2 ∧ d ≤ g.2 - g.1 := by
  induction busy generalizing cur with
  | nil => simp [freeSlotsLoop]
  | cons q rest ih =>
    obtain ⟨bs, be⟩ := q
    intro g hg
    simp only [freeSlotsLoop] at hg
    rcases List.mem_append.1 hg with h | h
    · split at h
      · split at h
        · rcases List.mem_singleton.1 h with rfl
          constructor
          · exact le_refl _
          · constructor <;> omega
        · exact absurd h (List.not_mem_nil g)
      · exact absurd h (List.not_mem_nil g)
    · have := ih (if be > cur then be else cur) g h
      refine ⟨le_trans ?_ this.1, this.2⟩
      split <;> omega

lemma freeSlotsLoop_gap_end_le (d : Int) (busy : List (Int × Int)) (cur : Int)
    (hwf : ∀ p ∈ busy, p.1 ≤ p.2) :
    ∀ g ∈ (freeSlotsLoop d busy cur).1, g.2 ≤ (freeSlotsLoop d busy cur).2 := by
  induction busy generalizing cur with
  | nil => simp [freeSlotsLoop]
  | cons q rest ih =>
    obtain ⟨bs, be⟩ := q
    intro g hg
    have hbs_be : bs ≤ be := hwf (bs, be) (List.mem_cons_self _ _)
    simp only [freeSlotsLoop] at hg ⊢
    rcases List.mem_append.1 hg with h | h
    · have hfin := freeSlotsLoop_le_final d rest (if be > cur then be else cur)
      split at h
      · split at h
        · rcases List.mem_singleton.1 h with rfl
          rename_i hgt _
          have hble : bs ≤ (if be > cur then be else cur) := by split <;> omega
          exact le_trans hble hfin
        · exact absurd h (List.not_mem_nil g)
      · exact absurd h (List.not_mem_nil g)
    · exact ih (if be > cur then be else cur)
        (fun p hp => hwf p (List.mem_cons_of_mem _ hp)) g h

lemma freeSlotsLoop_pairwise (d : Int) (busy : List (Int × Int)) (cur : Int)
    (hwf : ∀ p ∈ busy, p.1 ≤ p.2) :
    List.Pairwise (fun g1 g2 : Int × Int => g1.2 ≤ g2.1) (freeSlotsLoop d busy cur).1 := by
  induction busy generalizing cur with
  | nil => simp [freeSlotsLoop]
  | cons q rest ih =>
    obtain ⟨bs, be⟩ := q
    have hbs_be : bs ≤ be := hwf (bs, be) (List.mem_cons_self _ _)
    have hwf' : ∀ p ∈ rest, p.1 ≤ p.2 := fun p hp => hwf p (List.mem_cons_of_mem _ hp)
    simp only [freeSlotsLoop]
    refine List.pairwise_append.2 ⟨?_, ih (if be > cur then be else cur) hwf', ?_⟩
    · split
      · split
        · exact List.pairwise_singleton _ _
        · exact List.Pairwise.nil
      · exact List.Pairwise.nil
    · intro a ha b hb
      have hbnd := freeSlotsLoop_gap_bounds d rest (if be > cur then be else cur) b hb
      split at ha
      · split at ha
        · rcases List.mem_singleton.1 ha with rfl
          simp only
          rename_i hgt _
          have : (if be > cur then be else cur) ≤ b.1 := hbnd.1
          split at this <;> omega
        · exact absurd ha (List.not_mem_nil a)
      · exact absurd ha (List.not_mem_nil a)

lemma freeSlotsLoop_no_overlap (d : Int) (busy : List (Int × Int)) (cur : Int)
    (hwf : ∀ p ∈ busy, p.1 ≤ p.2)
    (hsorted : List.Pairwise (fun p q : Int × Int => p.1 ≤ q.1) busy) :
    ∀ g ∈ (freeSlotsLoop d busy cur).1, ∀ p ∈ busy, ¬(g.1 < p.2 ∧ p.1 < g.2) := by
  induction busy generalizing cur with
  | nil => simp
  | cons q rest ih =>
    obtain ⟨bs, be⟩ := q
    have hbs_be : bs ≤ be := hwf (bs, be) (List.mem_cons_self _ _)
    have hwf' : ∀ p ∈ rest, p.1 ≤ p.2 := fun p hp => hwf p (List.mem_cons_of_mem _ hp)
    have hhead := List.pairwise_cons.1 hsorted |>.1
    have hsorted' := List.pairwise_cons.1 hsorted |>.2
    intro g hg p hp
    simp only [freeSlotsLoop] at hg
    rcases List.mem_append.1 hg with h | h
    · split at h
      · split at h
        · rcases List.mem_singleton.1 h with rfl
          rcases List.mem_cons.1 hp with rfl | hp'
          · simp only
            omega
          · have : bs ≤ p.1 := hhead p hp'
            simp only
            omega
        · exact absurd h (List.not_mem_nil g)
      · exact absurd h (List.not_mem_nil g)
    · rcases List.mem_cons.1 hp with rfl | hp'
      · have hbnd := freeSlotsLoop_gap_bounds d rest (if be > cur then be else cur) g h
        have : (if be > cur then be else cur) ≤ g.1 := hbnd.1
        simp only
        split at this <;> omega
      · exact ih (if be > cur then be else cur) hwf' hsorted' g h p hp'

/-! ### Claims about `compute_free_slots` -/

/-- Claim C1: for every window with `start < end`, every positive duration
`d`, and every list of busy intervals (each with `start ≤ end`) sorted by
start, the gaps returned by `compute_free_slots` are pairwise non-overlapping
and chronologically ordered (each gap ends no later than the next begins),
each gap is at least `d` long, and no gap overlaps any busy interval. -/
theorem compute_free_slots_sound (busy : List (Int × Int)) (s e d : Int)
    (hwin : s < e) (hd : 0 < d)
    (hwf : ∀ p ∈ busy, p.1 ≤ p.2)
    (hsorted : List.Pairwise (fun p q : Int × Int => p.1 ≤ q.1) busy) :
    List.Pairwise (fun g1 g2 : Int × Int => g1.2 ≤ g2.1) (compute_free_slots busy s e d) ∧
    (∀ g ∈ compute_free_slots busy s e d, d ≤ g.2 - g.1) ∧
    (∀ g ∈ compute_free_slots busy s e d, ∀ p ∈ busy, ¬(g.1 < p.2 ∧ p.1 < g.2)) := by
  have hpw := freeSlotsLoop_pairwise d busy s hwf
  have hbnd := freeSlotsLoop_gap_bounds d busy s
  have hend := freeSlotsLoop_gap_end_le d busy s hwf
  have hno := freeSlotsLoop_no_overlap d busy s hwf hsorted
  have hbusy := freeSlotsLoop_busy_le_final d busy s
  simp only [compute_free_slots]
  split
  · split
    · rename_i h1 h2
      refine ⟨?_, ?_, ?_⟩
      · refine List.pairwise_append.2 ⟨hpw, List.pairwise_singleton _ _, ?_⟩
        intro a ha b hb
        rcases List.mem_singleton.1 hb with rfl
        exact hend a ha
      · intro g hg
        rcases List.mem_append.1 hg with h | h
        · exact (hbnd g h).2.2
        · rcases List.mem_singleton.1 h with rfl
          simpa using h2
      · intro g hg p hp
        rcases List.mem_append.1 hg with h | h
        · exact hno g h p hp
        · rcases List.mem_singleton.1 h with rfl
          have := hbusy p hp
          simp only
          omega
    · exact ⟨hpw, fun g hg => (hbnd g hg).2.2, hno⟩
  · exact ⟨hpw, fun g hg => (hbnd g hg).2.2, hno⟩

/-- Witness for C1 at a concrete input. -/
theorem compute_free_slots_sound_witness :
    List.Pairwise (fun g1 g2 : Int × Int => g1.2 ≤ g2.1)
      (compute_free_slots [(2, 4), (6, 7)] 0 10 2) ∧
    (∀ g ∈ compute_free_slots [(2, 4), (6, 7)] 0 10 2, 2 ≤ g.2 - g.1) ∧
    (∀ g ∈ compute_free_slots [(2, 4), (6, 7)] 0 10 2,
      ∀ p ∈ ([(2, 4), (6, 7)] : List (Int × Int)), ¬(g.1 < p.2 ∧ p.1 < g.2)) :=
  compute_free_slots_sound [(2, 4), (6, 7)] 0 10 2 (by decide) (by decide)
    (by decide) (by decide)

/-- Claim C4: for every list of busy intervals, including overlapping ones
and ones not sorted by start, every gap emitted by `compute_free_slots` has
its start strictly before its end. -/
theorem compute_free_slots_gap_pos (busy : List (Int × Int)) (s e d : Int)
    (g : Int × Int) (hg : g ∈ compute_free_slots busy s e d) : g.1 < g.2 := by
  simp only [compute_free_slots] at hg
  split at hg
  · split at hg
    · rcases List.mem_append.1 hg with h | h
      · exact (freeSlotsLoop_gap_bounds d busy s g h).2.1
      · rcases List.mem_singleton.1 h with rfl
        rename_i h1 _
        exact h1
    · exact (freeSlotsLoop_gap_bounds d busy s g hg).2.1
  · exact (freeSlotsLoop_gap_bounds d busy s g hg).2.1

/-- Witness for C4 at a concrete input: an unsorted, overlapping busy list. -/
theorem compute_free_slots_gap_pos_witness :
    (((5 : Int), (10 : Int)) : Int × Int).1 < (((5 : Int), (10 : Int)) : Int × Int).2 :=
  compute_free_slots_gap_pos [(3, 5), (0, 4)] 0 10 1 (5, 10) (by decide)

/-- Claim C5: on an empty busy list with `start < end` and `0 < d`,
`compute_free_slots` returns the single gap `(start, end)` when
`end - start ≥ d` and nothing otherwise. -/
theorem compute_free_slots_empty_busy (s e d : Int) (hwin : s < e) (hd : 0 < d) :
    compute_free_slots [] s e d = if d ≤ e - s then [(s, e)] else [] := by
  simp [compute_free_slots, freeSlotsLoop, hwin, ge_iff_le]

/-- Witness for C5 at a concrete input. -/
theorem compute_free_slots_empty_busy_witness :
    compute_free_slots [] 0 100 30 = if (30 : Int) ≤ 100 - 0 then [(0, 100)] else [] :=
  compute_free_slots_empty_busy 0 100 30 (by decide) (by decide)

/-- Claim C6: when the busy list is exactly the whole window and
`start < end`, `0 < d`, `compute_free_slots` returns no gaps. -/
theorem compute_free_slots_window_covering_busy (s e d : Int)
    (hwin : s < e) (hd : 0 < d) :
    compute_free_slots [(s, e)] s e d = [] := by
  simp [compute_free_slots, freeSlotsLoop, hwin]

/-- Witness for C6 at a concrete input. -/
theorem compute_free_slots_window_covering_busy_witness :
    compute_free_slots [(0, 100)] 0 100 30 = [] :=
  compute_free_slots_window_covering_busy 0 100 30 (by decide) (by decide)

/-- Claim C7: with the window 09:00-12:00 (minutes 540-720), the busy
interval 09:30-10:00 (570-600) and duration 60, `compute_free_slots` returns
exactly the gap 10:00-12:00 (600-720); the 09:00-09:30 span is omitted as
shorter than 60 minutes. -/
theorem compute_free_slots_morning_example :
    compute_free_slots [(570, 600)] 540 720 60 = [(600, 720)] := by decide

/-! ### Claims about the HTTP handlers -/

/-- Counterexample to C2 as stated: a `/get_available_slots` request with
`duration_minutes=0`, a valid window and a configured environment is not
rejected: the handler answers 200 and both provider interactions (service
construction and the free/busy query) are performed. -/
theorem get_available_slots_zero_duration_not_rejected :
    (get_available_slots ⟨some "cal", none, .ok ()⟩
        ⟨some (.valid 0), some (.valid 100), some (.ok 0)⟩ (fun _ _ => .ok [])).1.status
      = 200 ∧
    (get_available_slots ⟨some "cal", none, .ok ()⟩
        ⟨some (.valid 0), some (.valid 100), some (.ok 0)⟩ (fun _ _ => .ok [])).2
      = [.buildService, .freeBusyQuery 0 100] :=
  ⟨rfl, rfl⟩

/-- Claim C2 amended: `get_available_slots` performs no validation of
`duration_minutes`; a request with a zero or negative duration proceeds to
the provider call and, on provider success, returns 200 with the slots
computed for that non-positive duration. -/
theorem get_available_slots_nonpos_duration_accepted (cid : String)
    (tzn : Option String) (s e d : Int) (busy : List (Int × Int))
    (freebusy : Int → Int → Except String (List (Int × Int)))
    (hd : d ≤ 0) (hwin : s < e) (hfb : freebusy s e = .ok busy) :
    get_available_slots ⟨some cid, tzn, .ok ()⟩
        ⟨some (.valid s), some (.valid e), some (.ok d)⟩ freebusy =
      (⟨200, .freeSlots (compute_free_slots (sortByStart busy) s e d)⟩,
       [.buildService, .freeBusyQuery s e]) := by
  have hnge : ¬s ≥ e := not_le.2 hwin
  simp [get_available_slots, tsFalsy, parse_iso, getIntArg, query_free_busy, hfb, hnge]

/-- Witness for the amended C2 at a concrete input. -/
theorem get_available_slots_nonpos_duration_accepted_witness :
    get_available_slots ⟨some "cal", none, .ok ()⟩
        ⟨some (.valid 0), some (.valid 100), some (.ok (-5))⟩ (fun _ _ => .ok [(10, 20)]) =
      (⟨200, .freeSlots (compute_free_slots (sortByStart [(10, 20)]) 0 100 (-5))⟩,
       [.buildService, .freeBusyQuery 0 100]) :=
  get_available_slots_nonpos_duration_accepted "cal" none 0 100 (-5) [(10, 20)]
    (fun _ _ => .ok [(10, 20)]) (by decide) (by decide) rfl

/-- Claim C3: a request whose parsed start is at or after its parsed end is
answered 400 ("start must be before end") by both endpoints, with no
provider interaction at all (no service constructed, no free/busy query, no
event insertion), whatever the credentials and provider behaviour. -/
theorem start_ge_end_rejected (cid : String) (tzn : Option String)
    (creds : Except String Unit) (s e : Int) (dm : Option IntParam)
    (freebusy : Int → Int → Except String (List (Int × Int)))
    (b : MeetingBody) (insertEv : EventBody → Except String CreatedEvent)
    (hse : e ≤ s)
    (hbs : b.start = some (.valid s)) (hbe : b.endField = some (.valid e)) :
    get_available_slots ⟨some cid, tzn, creds⟩
        ⟨some (.valid s), some (.valid e), dm⟩ freebusy =
      (⟨400, .errorMsg "start must be before end"⟩, []) ∧
    book_meeting ⟨some cid, tzn, creds⟩ (some b) insertEv =
      (⟨400, .errorMsg "start must be before end"⟩, []) := by
  constructor
  · simp [get_available_slots, tsFalsy, parse_iso, getIntArg, hse]
  · have htruthy : bodyTruthy b = true := by simp [bodyTruthy, hbs]
    simp [book_meeting, htruthy, hbs, hbe, tsFalsy, parse_iso, hse]

/-- Witness for C3 at a concrete input. -/
theorem start_ge_end_rejected_witness :
    get_available_slots ⟨some "cal", none, .ok ()⟩
        ⟨some (.valid 100), some (.valid 50), none⟩ (fun _ _ => .ok []) =
      (⟨400, .errorMsg "start must be before end"⟩, []) ∧
    book_meeting ⟨some "cal", none, .ok ()⟩
        (some ⟨some (.valid 100), some (.valid 50), none, none, none, 0⟩)
        (fun _ => .error "provider unreachable") =
      (⟨400, .errorMsg "start must be before end"⟩, []) :=
  start_ge_end_rejected "cal" none (.ok ()) 100 50 none (fun _ _ => .ok [])
    ⟨some (.valid 100), some (.valid 50), none, none, none, 0⟩
    (fun _ => .error "provider unreachable") (by decide) rfl rfl

/-- Claim C8: for a valid `/book_meeting` request whose body omits `summary`
and `attendees`, the event sent to the provider carries the placeholder
summary `"Meeting"` and no attendee list, and on provider success the
endpoint answers 201 echoing the created event's id, htmlLink, summary,
start and end. -/
theorem book_meeting_defaults (cid : String) (tzn : Option String)
    (b : MeetingBody) (s e : Int)
    (insertEv : EventBody → Except String CreatedEvent) (ce : CreatedEvent)
    (hbs : b.start = some (.valid s)) (hbe : b.endField = some (.valid e))
    (hwin : s < e) (hsum : b.summary = none) (hatt : b.attendees = none)
    (hins : insertEv (mkEventBody b s e (tzn.getD "UTC")) = .ok ce) :
    (mkEventBody b s e (tzn.getD "UTC")).summary = "Meeting" ∧
    (mkEventBody b s e (tzn.getD "UTC")).attendees = none ∧
    book_meeting ⟨some cid, tzn, .ok ()⟩ (some b) insertEv =
      (⟨201, .created ⟨ce.id, ce.htmlLink, ce.summary, ce.start, ce.endTime⟩⟩,
       [.buildService, .insertEvent (mkEventBody b s e (tzn.getD "UTC"))]) := by
  have htruthy : bodyTruthy b = true := by simp [bodyTruthy, hbs]
  have hnge : ¬s ≥ e := not_le.2 hwin
  refine ⟨by simp [mkEventBody, hsum], by simp [mkEventBody, hatt], ?_⟩
  simp [book_meeting, htruthy, hbs, hbe, tsFalsy, parse_iso, hnge, hins]

/-- Witness for C8 at a concrete input. -/
theorem book_meeting_defaults_witness :
    (mkEventBody ⟨some (.valid 10), some (.valid 20), none, none, none, 0⟩
      10 20 "UTC").summary = "Meeting" ∧
    (mkEventBody ⟨some (.valid 10), some (.valid 20), none, none, none, 0⟩
      10 20 "UTC").attendees = none ∧
    book_meeting ⟨some "cal", none, .ok ()⟩
        (some ⟨some (.valid 10), some (.valid 20), none, none, none, 0⟩)
        (fun _ => .ok ⟨some "evt1", some "link1", some "Meeting", none, none⟩) =
      (⟨201, .created ⟨some "evt1", some "link1", some "Meeting", none, none⟩⟩,
       [.buildService, .insertEvent
          (mkEventBody ⟨some (.valid 10), some (.valid 20), none, none, none, 0⟩
            10 20 "UTC")]) :=
  book_meeting_defaults "cal" none
    ⟨some (.valid 10), some (.valid 20), none, none, none, 0⟩ 10 20
    (fun _ => .ok ⟨some "evt1", some "link1", some "Meeting", none, none⟩)
    ⟨some "evt1", some "link1", some "Meeting", none, none⟩
    rfl rfl (by decide) rfl rfl rfl

/-- Claim C9: any falsy parsed body — a missing or non-JSON body, JSON
`null`, or the syntactically valid empty object — is answered 400 with
"Request body must be JSON" and no provider interaction, so an empty JSON
object is indistinguishable from a missing body. -/
theorem book_meeting_falsy_body (cid : String) (tzn : Option String)
    (creds : Except String Unit) (data : Option MeetingBody)
    (insertEv : EventBody → Except String CreatedEvent)
    (hfalsy : dataFalsy data = true) :
    book_meeting ⟨some cid, tzn, creds⟩ data insertEv =
      (⟨400, .errorMsg "Request body must be JSON"⟩, []) := by
  match data with
  | none => simp [book_meeting]
  | some b =>
    have hb : bodyTruthy b = false := by simpa [dataFalsy] using hfalsy
    simp [book_meeting, hb]

/-- Witness for C9 at the empty JSON object: every field absent, no extra
keys. -/
theorem book_meeting_falsy_body_witness :
    book_meeting ⟨some "cal", none, .ok ()⟩ (some ⟨none, none, none, none, none, 0⟩)
        (fun _ => .error "provider unreachable") =
      (⟨400, .errorMsg "Request body must be JSON"⟩, []) :=
  book_meeting_falsy_body "cal" none (.ok ()) (some ⟨none, none, none, none, none, 0⟩)
    (fun _ => .error "provider unreachable") (by decide)

/-- Claim C10: a `/get_available_slots` request that omits
`duration_minutes` is computed with the default duration of 60 minutes. -/
theorem get_available_slots_default_duration (cid : String) (tzn : Option String)
    (s e : Int) (busy : List (Int × Int))
    (freebusy : Int → Int → Except String (List (Int × Int)))
    (hwin : s < e) (hfb : freebusy s e = .ok busy) :
    get_available_slots ⟨some cid, tzn, .ok ()⟩
        ⟨some (.valid s), some (.valid e), none⟩ freebusy =
      (⟨200, .freeSlots (compute_free_slots (sortByStart busy) s e 60)⟩,
       [.buildService, .freeBusyQuery s e]) := by
  have hnge : ¬s ≥ e := not_le.2 hwin
  simp [get_available_slots, tsFalsy, parse_iso, getIntArg, query_free_busy, hfb, hnge]

/-- Witness for C10 at a concrete input. -/
theorem get_available_slots_default_duration_witness :
    get_available_slots ⟨some "cal", none, .ok ()⟩
        ⟨some (.valid 0), some (.valid 100), none⟩ (fun _ _ => .ok [(10, 20)]) =
      (⟨200, .freeSlots (compute_free_slots (sortByStart [(10, 20)]) 0 100 60)⟩,
       [.buildService, .freeBusyQuery 0 100]) :=
  get_available_slots_default_duration "cal" none 0 100 [(10, 20)]
    (fun _ _ => .ok [(10, 20)]) (by decide) rfl

end CalendarIntegration
